import Mathlib

/-!
Verification of the CLV (Customer Lifetime Value) Discounting Engine and
Horizon Resizer from `src/src/App.tsx`, shallowly embedded over ℚ.
JavaScript numbers are modelled as exact rationals; `Number.prototype.toFixed`
is modelled by `toFixed` below; JavaScript default number-to-string rendering
(used only inside the display-only `calculation` string, whose content the
specification leaves to the excluded display collaborator) is abstracted by
`jsNumStr`.
-/

/-- The parameter model `CLVData` from `App.tsx` lines 4–10. -/
structure CLVData where
  margin : ℚ
  repeatProbabilities : List ℚ
  acquisitionCost : ℚ
  discountRate : ℚ
  timeHorizon : ℕ
deriving Repr, DecidableEq

/-- One row of the yearly breakdown (the anonymous record type of
`yearlyBreakdown`, `App.tsx` lines 22–30). -/
structure BreakdownRow where
  year : ℕ
  margin : ℚ
  repeatProb : ℚ
  adjustedMargin : ℚ
  discountFactor : ℚ
  presentValue : ℚ
  calculation : String
deriving Repr, DecidableEq

/-- The result of one full recomputation: the three pieces of state set by
`calculateCLV` (`setYearlyBreakdown`, `setTotalPV`, `setCLV`). -/
structure CLVResult where
  yearlyBreakdown : List BreakdownRow
  totalPV : ℚ
  clv : ℚ
deriving Repr, DecidableEq

/-- JavaScript `x || 0` on an optional numeric field: `undefined` (the entry is
missing) and the falsy number `0` both yield `0`; any other number is returned
unchanged.  (`NaN` does not exist in ℚ.) -/
def jsOrZero (x : Option ℚ) : ℚ :=
  match x with
  | none => 0
  | some v => if v = 0 then 0 else v

/-- `data.repeatProbabilities[t] || 0` from `App.tsx` line 42. -/
def probAt (l : List ℚ) (t : ℕ) : ℚ := jsOrZero l[t]?

/-- Decimal digits of a natural number, left-padded with zeros to width `f`. -/
def padLeftZeros (s : String) (f : ℕ) : String :=
  String.mk (List.replicate (f - s.length) '0') ++ s

/-- Model of JavaScript `Number.prototype.toFixed(f)` on exact rationals:
round `|q| * 10^f` half-up to an integer, prepend the sign, and insert the
decimal point `f` digits from the right (no point when `f = 0`). -/
def toFixed (q : ℚ) (f : ℕ) : String :=
  let sign := if q < 0 then "-" else ""
  let n : ℕ := (⌊|q| * (10 : ℚ) ^ f + 1 / 2⌋).toNat
  if f = 0 then sign ++ toString n
  else sign ++ toString (n / 10 ^ f) ++ "." ++ padLeftZeros (toString (n % 10 ^ f)) f

/-- Abstraction of JavaScript default number-to-string rendering, used only in
the display-only `calculation` string (display formatting is outside the
specified core). -/
def jsNumStr (q : ℚ) : String :=
  if q.den = 1 then toString q.num
  else toString q.num ++ "/" ++ toString q.den

/-- The per-period `calculation` string built in `App.tsx` lines 50–55. -/
def calcString (margin repeatProb adjustedMargin presentValue discountRate : ℚ)
    (t : ℕ) : String :=
  if t = 0 then
    "$" ++ jsNumStr margin ++ " × " ++ jsNumStr (repeatProb / 100) ++
      " = $" ++ toFixed adjustedMargin 0
  else
    "$" ++ toFixed adjustedMargin 0 ++ " ÷ (1+" ++ jsNumStr (discountRate / 100) ++
      ")^" ++ toString t ++ " ≈ $" ++ toFixed presentValue 0

/-- The body of one iteration of the loop in `calculateCLV`
(`App.tsx` lines 41–66): the breakdown row pushed for period `t`. -/
def computeRow (data : CLVData) (t : ℕ) : BreakdownRow :=
  let repeatProb := probAt data.repeatProbabilities t
  let adjustedMargin := data.margin * (repeatProb / 100)
  let discountFactor := (1 + data.discountRate / 100) ^ t
  let presentValue := adjustedMargin / discountFactor
  { year := t
    margin := data.margin
    repeatProb := repeatProb
    adjustedMargin := adjustedMargin
    discountFactor := discountFactor
    presentValue := presentValue
    calculation := calcString data.margin repeatProb adjustedMargin presentValue
      data.discountRate t }

/-- `calculateCLV` from `App.tsx` lines 37–72: the loop pushes one row per
period `t = 0 .. timeHorizon − 1` and accumulates `presentValue` into
`totalPresentValue`; afterwards `finalCLV := totalPresentValue −
acquisitionCost`. -/
def calculateCLV (data : CLVData) : CLVResult :=
  let breakdown := (List.range data.timeHorizon).map (computeRow data)
  let totalPresentValue := (breakdown.map (fun r => r.presentValue)).sum
  let finalCLV := totalPresentValue - data.acquisitionCost
  { yearlyBreakdown := breakdown
    totalPV := totalPresentValue
    clv := finalCLV }

/-- `addYear` from `App.tsx` lines 80–88 (the spec's `growHorizon`). -/
def addYear (data : CLVData) : CLVData :=
  if data.timeHorizon < 10 then
    { data with
        timeHorizon := data.timeHorizon + 1
        repeatProbabilities := data.repeatProbabilities ++ [20] }
  else data

/-- `removeYear` from `App.tsx` lines 90–98 (the spec's `shrinkHorizon`);
`slice(0, -1)` drops the last element. -/
def removeYear (data : CLVData) : CLVData :=
  if data.timeHorizon > 1 then
    { data with
        timeHorizon := data.timeHorizon - 1
        repeatProbabilities := data.repeatProbabilities.dropLast }
  else data

/-- The CSV table built by `exportResults` (`App.tsx` lines 100–115), as a
list of rows of cells, before the final join with commas and newlines. -/
def exportTable (breakdown : List BreakdownRow) (totalPV acquisitionCost clv : ℚ) :
    List (List String) :=
  [["Year", "Margin ($)", "Repeat Prob (%)", "Adjusted Margin ($)",
    "Discount Factor", "Present Value ($)", "Calculation"]]
  ++ breakdown.map (fun row =>
      [if row.year = 0 then "Acquisition" else "Year " ++ toString row.year,
       toFixed row.margin 2,
       toFixed row.repeatProb 0,
       toFixed row.adjustedMargin 2,
       toFixed row.discountFactor 4,
       toFixed row.presentValue 2,
       row.calculation])
  ++ [["", "", "", "", "", "Total PV:", toFixed totalPV 2],
      ["", "", "", "", "", "Acquisition Cost:", toFixed (-acquisitionCost) 2],
      ["", "", "", "", "", "Final CLV:", toFixed clv 2]]

/-- The joined CSV string of `exportResults` (`App.tsx` line 115). -/
def exportCsv (breakdown : List BreakdownRow) (totalPV acquisitionCost clv : ℚ) :
    String :=
  String.intercalate "\n"
    ((exportTable breakdown totalPV acquisitionCost clv).map
      (String.intercalate ","))

/-- The default parameter state (`App.tsx` lines 13–19). -/
def defaultData : CLVData :=
  { margin := 60
    repeatProbabilities := [100, 90, 85, 85, 60, 30]
    acquisitionCost := 6
    discountRate := 10
    timeHorizon := 6 }

/-- Placeholder row used as the default value when indexing row lists. -/
def dummyRow : BreakdownRow :=
  { year := 0, margin := 0, repeatProb := 0, adjustedMargin := 0
    discountFactor := 0, presentValue := 0, calculation := "" }

/-- `x || 0` agrees with "the entry if present, else 0" on rationals. -/
theorem probAt_eq_getD (l : List ℚ) (t : ℕ) : probAt l t = l.getD t 0 := by
  unfold probAt jsOrZero
  rcases h : l[t]? with _ | v
  · simp [List.getD, h]
  · by_cases hv : v = 0 <;> simp [List.getD, h, hv]

/-- The breakdown always has one row per period. -/
theorem calculateCLV_length (d : CLVData) :
    (calculateCLV d).yearlyBreakdown.length = d.timeHorizon := by
  simp [calculateCLV]

/-- Indexing the breakdown at a valid period yields the row of that period. -/
theorem calculateCLV_getD (d : CLVData) (t : ℕ) (ht : t < d.timeHorizon) :
    (calculateCLV d).yearlyBreakdown.getD t dummyRow = computeRow d t := by
  simp [calculateCLV, List.getD, ht]

/-- C1: for every parameter value with `timeHorizon ≥ 1`, `compute` returns
exactly `timeHorizon` rows, in increasing period order (the row at position
`t` is the row of period `t`), and the row for period `t` has
`repeatProb = repeatProbabilities[t]` if present else `0`,
`adjustedMargin = margin * (repeatProb / 100)`,
`discountFactor = (1 + discountRate/100) ^ t`, and
`presentValue = adjustedMargin / discountFactor`. -/
theorem compute_rows_spec (d : CLVData) (h1 : 1 ≤ d.timeHorizon)
    (t : ℕ) (ht : t < d.timeHorizon) :
    (calculateCLV d).yearlyBreakdown.length = d.timeHorizon ∧
    ((calculateCLV d).yearlyBreakdown.getD t dummyRow).year = t ∧
    ((calculateCLV d).yearlyBreakdown.getD t dummyRow).repeatProb =
      d.repeatProbabilities.getD t 0 ∧
    ((calculateCLV d).yearlyBreakdown.getD t dummyRow).adjustedMargin =
      d.margin * (((calculateCLV d).yearlyBreakdown.getD t dummyRow).repeatProb / 100) ∧
    ((calculateCLV d).yearlyBreakdown.getD t dummyRow).discountFactor =
      (1 + d.discountRate / 100) ^ t ∧
    ((calculateCLV d).yearlyBreakdown.getD t dummyRow).presentValue =
      ((calculateCLV d).yearlyBreakdown.getD t dummyRow).adjustedMargin /
        ((calculateCLV d).yearlyBreakdown.getD t dummyRow).discountFactor := by
  rw [calculateCLV_getD d t ht]
  refine ⟨calculateCLV_length d, rfl, ?_, rfl, rfl, rfl⟩
  simpa [computeRow] using probAt_eq_getD d.repeatProbabilities t

/-- Witness for C1 at the default parameters and period 1. -/
theorem compute_rows_spec_witness :
    1 ≤ defaultData.timeHorizon ∧ 1 < defaultData.timeHorizon ∧
    ((calculateCLV defaultData).yearlyBreakdown.length = defaultData.timeHorizon ∧
     ((calculateCLV defaultData).yearlyBreakdown.getD 1 dummyRow).year = 1 ∧
     ((calculateCLV defaultData).yearlyBreakdown.getD 1 dummyRow).repeatProb =
       defaultData.repeatProbabilities.getD 1 0 ∧
     ((calculateCLV defaultData).yearlyBreakdown.getD 1 dummyRow).adjustedMargin =
       defaultData.margin *
         (((calculateCLV defaultData).yearlyBreakdown.getD 1 dummyRow).repeatProb / 100) ∧
     ((calculateCLV defaultData).yearlyBreakdown.getD 1 dummyRow).discountFactor =
       (1 + defaultData.discountRate / 100) ^ 1 ∧
     ((calculateCLV defaultData).yearlyBreakdown.getD 1 dummyRow).presentValue =
       ((calculateCLV defaultData).yearlyBreakdown.getD 1 dummyRow).adjustedMargin /
         ((calculateCLV defaultData).yearlyBreakdown.getD 1 dummyRow).discountFactor) :=
  ⟨by norm_num [defaultData], by norm_num [defaultData],
   compute_rows_spec defaultData (by norm_num [defaultData]) 1 (by norm_num [defaultData])⟩

/-- C2: for every parameter value with `timeHorizon ≥ 1`, the returned
`totalPV` equals the sum of `presentValue` over all returned rows, and the
returned `clv` equals `totalPV − acquisitionCost`, exactly. -/
theorem compute_totals_spec (d : CLVData) (h1 : 1 ≤ d.timeHorizon) :
    (calculateCLV d).totalPV =
      ((calculateCLV d).yearlyBreakdown.map (fun r => r.presentValue)).sum ∧
    (calculateCLV d).clv = (calculateCLV d).totalPV - d.acquisitionCost := by
  exact ⟨rfl, rfl⟩

/-- Witness for C2 at the default parameters. -/
theorem compute_totals_spec_witness :
    1 ≤ defaultData.timeHorizon ∧
    ((calculateCLV defaultData).totalPV =
       ((calculateCLV defaultData).yearlyBreakdown.map (fun r => r.presentValue)).sum ∧
     (calculateCLV defaultData).clv =
       (calculateCLV defaultData).totalPV - defaultData.acquisitionCost) :=
  ⟨by norm_num [defaultData], compute_totals_spec defaultData (by norm_num [defaultData])⟩

/-- C9: for every parameter value with `timeHorizon ≥ 1` and every discount
rate, the first returned row has `discountFactor = 1` and
`presentValue = adjustedMargin`: period 0 is undiscounted. -/
theorem compute_period_zero_undiscounted (d : CLVData) (h1 : 1 ≤ d.timeHorizon) :
    ((calculateCLV d).yearlyBreakdown.getD 0 dummyRow).discountFactor = 1 ∧
    ((calculateCLV d).yearlyBreakdown.getD 0 dummyRow).presentValue =
      ((calculateCLV d).yearlyBreakdown.getD 0 dummyRow).adjustedMargin := by
  rw [calculateCLV_getD d 0 h1]
  simp [computeRow]

/-- Witness for C9 at the default parameters. -/
theorem compute_period_zero_undiscounted_witness :
    1 ≤ defaultData.timeHorizon ∧
    (((calculateCLV defaultData).yearlyBreakdown.getD 0 dummyRow).discountFactor = 1 ∧
     ((calculateCLV defaultData).yearlyBreakdown.getD 0 dummyRow).presentValue =
       ((calculateCLV defaultData).yearlyBreakdown.getD 0 dummyRow).adjustedMargin) :=
  ⟨by norm_num [defaultData],
   compute_period_zero_undiscounted defaultData (by norm_num [defaultData])⟩

/-- C7: when `discountRate = −100`, every returned row of period `t ≥ 1` has
`discountFactor = 0`, with no special-casing or clamping: its `presentValue`
is exactly the division `adjustedMargin / 0` of the model's arithmetic,
surfaced as-is in the rows (and therefore in their sum `totalPV` and in
`clv`); the embedding is a total function, so no input within the stated
constraints raises an exception in the Discounting Engine or the
Horizon Resizer. -/
theorem compute_degenerate_rate (d : CLVData) (hrate : d.discountRate = -100)
    (t : ℕ) (ht1 : 1 ≤ t) (ht2 : t < d.timeHorizon) :
    ((calculateCLV d).yearlyBreakdown.getD t dummyRow).discountFactor = 0 ∧
    ((calculateCLV d).yearlyBreakdown.getD t dummyRow).presentValue =
      ((calculateCLV d).yearlyBreakdown.getD t dummyRow).adjustedMargin / 0 := by
  rw [calculateCLV_getD d t ht2]
  have hfac : (1 + d.discountRate / 100 : ℚ) ^ t = 0 := by
    have hbase : (1 + d.discountRate / 100 : ℚ) = 0 := by
      rw [hrate]
      norm_num
    rw [hbase]
    exact zero_pow (by omega)
  constructor
  · simpa [computeRow] using hfac
  · simp [computeRow, hfac]

/-- Witness for C7 at the default parameters with the rate set to −100,
period 1. -/
theorem compute_degenerate_rate_witness :
    ({ defaultData with discountRate := -100 } : CLVData).discountRate = -100 ∧
    1 ≤ 1 ∧ 1 < ({ defaultData with discountRate := -100 } : CLVData).timeHorizon ∧
    (((calculateCLV { defaultData with discountRate := -100 }).yearlyBreakdown.getD 1
        dummyRow).discountFactor = 0 ∧
     ((calculateCLV { defaultData with discountRate := -100 }).yearlyBreakdown.getD 1
        dummyRow).presentValue =
       ((calculateCLV { defaultData with discountRate := -100 }).yearlyBreakdown.getD 1
          dummyRow).adjustedMargin / 0) :=
  ⟨rfl, le_refl 1, by norm_num [defaultData],
   compute_degenerate_rate { defaultData with discountRate := -100 } rfl 1
     (le_refl 1) (by norm_num [defaultData])⟩

/-- A parameter state at the upper horizon bound, used as a concrete input. -/
def dataAtMax : CLVData :=
  { margin := 60
    repeatProbabilities := [100, 90, 85, 85, 60, 30, 20, 20, 20, 20]
    acquisitionCost := 6
    discountRate := 10
    timeHorizon := 10 }

/-- A parameter state at the lower horizon bound, used as a concrete input. -/
def dataAtMin : CLVData :=
  { margin := 60
    repeatProbabilities := [100]
    acquisitionCost := 6
    discountRate := 10
    timeHorizon := 1 }

/-- C3: both Horizon Resizer operations preserve the read invariant
`repeatProbabilities.length = timeHorizon`: starting from any state
satisfying it, the state after `addYear` and the state after `removeYear`
satisfy it again. -/
theorem resizer_preserves_invariant (d : CLVData)
    (h : d.repeatProbabilities.length = d.timeHorizon) :
    (addYear d).repeatProbabilities.length = (addYear d).timeHorizon ∧
    (removeYear d).repeatProbabilities.length = (removeYear d).timeHorizon := by
  constructor
  · unfold addYear
    by_cases hlt : d.timeHorizon < 10 <;> simp [hlt, h]
  · unfold removeYear
    by_cases hgt : d.timeHorizon > 1 <;> simp [hgt, h]

/-- Witness for C3 at the default parameters. -/
theorem resizer_preserves_invariant_witness :
    defaultData.repeatProbabilities.length = defaultData.timeHorizon ∧
    ((addYear defaultData).repeatProbabilities.length = (addYear defaultData).timeHorizon ∧
     (removeYear defaultData).repeatProbabilities.length =
       (removeYear defaultData).timeHorizon) :=
  ⟨by norm_num [defaultData], resizer_preserves_invariant defaultData (by norm_num [defaultData])⟩

/-- C4: on any state with `timeHorizon < 10`, `addYear` increments the
horizon by one, appends a single entry of value `20` to the probability
series, and leaves every other field unchanged; on any state with
`timeHorizon = 10` it is a no-op leaving the whole state unchanged (and, the
embedding being total, raises no error). -/
theorem addYear_spec (d : CLVData) :
    (d.timeHorizon < 10 →
      (addYear d).timeHorizon = d.timeHorizon + 1 ∧
      (addYear d).repeatProbabilities = d.repeatProbabilities ++ [20] ∧
      (addYear d).margin = d.margin ∧
      (addYear d).acquisitionCost = d.acquisitionCost ∧
      (addYear d).discountRate = d.discountRate) ∧
    (d.timeHorizon = 10 → addYear d = d) := by
  constructor
  · intro hlt
    simp [addYear, hlt]
  · intro heq
    simp [addYear, heq]

/-- Witness for C4: the growth branch at the default parameters and the
no-op branch at the upper bound. -/
theorem addYear_spec_witness :
    defaultData.timeHorizon < 10 ∧
    (addYear defaultData).timeHorizon = defaultData.timeHorizon + 1 ∧
    (addYear defaultData).repeatProbabilities = defaultData.repeatProbabilities ++ [20] ∧
    dataAtMax.timeHorizon = 10 ∧
    addYear dataAtMax = dataAtMax :=
  ⟨by norm_num [defaultData],
   ((addYear_spec defaultData).1 (by norm_num [defaultData])).1,
   ((addYear_spec defaultData).1 (by norm_num [defaultData])).2.1,
   rfl,
   (addYear_spec dataAtMax).2 rfl⟩

/-- C5: on any state with `timeHorizon > 1`, `removeYear` decrements the
horizon by one and removes exactly the last entry of the probability series
(on nonempty series, the old series is the new one with its last element
re-appended), leaving every other field unchanged; on any state with
`timeHorizon = 1` it is a no-op leaving the whole state unchanged. -/
theorem removeYear_spec (d : CLVData) :
    (d.timeHorizon > 1 →
      (removeYear d).timeHorizon = d.timeHorizon - 1 ∧
      (removeYear d).repeatProbabilities = d.repeatProbabilities.dropLast ∧
      (∀ hne : d.repeatProbabilities ≠ [],
        (removeYear d).repeatProbabilities ++ [d.repeatProbabilities.getLast hne] =
          d.repeatProbabilities) ∧
      (removeYear d).margin = d.margin ∧
      (removeYear d).acquisitionCost = d.acquisitionCost ∧
      (removeYear d).discountRate = d.discountRate) ∧
    (d.timeHorizon = 1 → removeYear d = d) := by
  constructor
  · intro hgt
    refine ⟨by simp [removeYear, hgt], by simp [removeYear, hgt], ?_,
      by simp [removeYear, hgt], by simp [removeYear, hgt], by simp [removeYear, hgt]⟩
    intro hne
    simp [removeYear, hgt]
    exact List.dropLast_append_getLast hne
  · intro heq
    simp [removeYear, heq]

/-- Witness for C5: the shrink branch at the default parameters and the
no-op branch at the lower bound. -/
theorem removeYear_spec_witness :
    defaultData.timeHorizon > 1 ∧
    (removeYear defaultData).timeHorizon = defaultData.timeHorizon - 1 ∧
    (removeYear defaultData).repeatProbabilities = defaultData.repeatProbabilities.dropLast ∧
    dataAtMin.timeHorizon = 1 ∧
    removeYear dataAtMin = dataAtMin :=
  ⟨by norm_num [defaultData],
   ((removeYear_spec defaultData).1 (by norm_num [defaultData])).1,
   ((removeYear_spec defaultData).1 (by norm_num [defaultData])).2.1,
   rfl,
   (removeYear_spec dataAtMin).2 rfl⟩

/-- C10: noninterference of `acquisitionCost`: two parameter states that
agree on every field except possibly `acquisitionCost` (with
`timeHorizon ≥ 1`) produce identical rows and identical `totalPV`;
`acquisitionCost` enters only the `clv` component, as
`clv = totalPV − acquisitionCost`. -/
theorem acquisitionCost_noninterference (d1 d2 : CLVData)
    (h1 : 1 ≤ d1.timeHorizon)
    (hm : d2.margin = d1.margin)
    (hp : d2.repeatProbabilities = d1.repeatProbabilities)
    (hr : d2.discountRate = d1.discountRate)
    (hh : d2.timeHorizon = d1.timeHorizon) :
    (calculateCLV d2).yearlyBreakdown = (calculateCLV d1).yearlyBreakdown ∧
    (calculateCLV d2).totalPV = (calculateCLV d1).totalPV ∧
    (calculateCLV d1).clv = (calculateCLV d1).totalPV - d1.acquisitionCost ∧
    (calculateCLV d2).clv = (calculateCLV d2).totalPV - d2.acquisitionCost := by
  have hrow : computeRow d2 = computeRow d1 := by
    funext t
    simp [computeRow, probAt, hm, hp, hr]
  have hrows : (calculateCLV d2).yearlyBreakdown = (calculateCLV d1).yearlyBreakdown := by
    simp [calculateCLV, hrow, hh]
  exact ⟨hrows, by simp [calculateCLV, hrow, hh], rfl, rfl⟩

/-- Witness for C10: the default parameters against the same state with a
different acquisition cost. -/
theorem acquisitionCost_noninterference_witness :
    1 ≤ defaultData.timeHorizon ∧
    ((calculateCLV { defaultData with acquisitionCost := 999 }).yearlyBreakdown =
       (calculateCLV defaultData).yearlyBreakdown ∧
     (calculateCLV { defaultData with acquisitionCost := 999 }).totalPV =
       (calculateCLV defaultData).totalPV ∧
     (calculateCLV defaultData).clv =
       (calculateCLV defaultData).totalPV - defaultData.acquisitionCost ∧
     (calculateCLV { defaultData with acquisitionCost := 999 }).clv =
       (calculateCLV { defaultData with acquisitionCost := 999 }).totalPV -
         ({ defaultData with acquisitionCost := 999 } : CLVData).acquisitionCost) :=
  ⟨by norm_num [defaultData],
   acquisitionCost_noninterference defaultData { defaultData with acquisitionCost := 999 }
     (by norm_num [defaultData]) rfl rfl rfl rfl⟩

/-- C8: at the default parameters (`margin = 60`,
`repeatProbabilities = [100, 90, 85, 85, 60, 30]`, `acquisitionCost = 6`,
`discountRate = 10`, `timeHorizon = 6`), each present value is within half a
unit of the last printed decimal of `[60, 49.09, 42.15, 38.32, 24.59, 11.18]`,
`totalPV` is within `0.005` of `225.32`, and `clv` is within `0.005` of
`219.32`. -/
theorem compute_default_scenario :
    |((calculateCLV defaultData).yearlyBreakdown.getD 0 dummyRow).presentValue - 60| ≤ 1 / 2 ∧
    |((calculateCLV defaultData).yearlyBreakdown.getD 1 dummyRow).presentValue -
      4909 / 100| ≤ 1 / 200 ∧
    |((calculateCLV defaultData).yearlyBreakdown.getD 2 dummyRow).presentValue -
      4215 / 100| ≤ 1 / 200 ∧
    |((calculateCLV defaultData).yearlyBreakdown.getD 3 dummyRow).presentValue -
      3832 / 100| ≤ 1 / 200 ∧
    |((calculateCLV defaultData).yearlyBreakdown.getD 4 dummyRow).presentValue -
      2459 / 100| ≤ 1 / 200 ∧
    |((calculateCLV defaultData).yearlyBreakdown.getD 5 dummyRow).presentValue -
      1118 / 100| ≤ 1 / 200 ∧
    |(calculateCLV defaultData).totalPV - 22532 / 100| ≤ 1 / 200 ∧
    |(calculateCLV defaultData).clv - 21932 / 100| ≤ 1 / 200 := by
  norm_num [calculateCLV, computeRow, defaultData, probAt, jsOrZero,
    List.range_succ, dummyRow, abs_le]

/-- The export of the current computation state: `exportResults` reads the
`yearlyBreakdown`, `totalPV`, `data.acquisitionCost` and `clv` state that
`calculateCLV` set for the current parameters. -/
def exportOf (d : CLVData) : List (List String) :=
  exportTable (calculateCLV d).yearlyBreakdown (calculateCLV d).totalPV
    d.acquisitionCost (calculateCLV d).clv

/-- Indexing the breakdown (total variant) yields the row of that period. -/
theorem rows_getElem (d : CLVData) (t : ℕ)
    (h : t < (calculateCLV d).yearlyBreakdown.length) :
    (calculateCLV d).yearlyBreakdown[t] = computeRow d t := by
  simp [calculateCLV] at h ⊢

/-- C6: the export is a flat table of `timeHorizon + 4` rows whose first row
is the header `Year, Margin ($), Repeat Prob (%), Adjusted Margin ($),
Discount Factor, Present Value ($), Calculation`; then one data row per
period, period 0 labeled `Acquisition` and period `t > 0` labeled `Year t`,
with margin, adjusted margin and present value formatted to 2 decimals, the
discount factor to 4 and the repeat probability to 0; followed by exactly
three trailing summary rows holding `totalPV`, the negation of
`acquisitionCost`, and `clv`. -/
theorem export_format_spec (d : CLVData) (h1 : 1 ≤ d.timeHorizon)
    (t : ℕ) (ht : t < d.timeHorizon) :
    (exportOf d).length = d.timeHorizon + 4 ∧
    (exportOf d).getD 0 [] = ["Year", "Margin ($)", "Repeat Prob (%)",
      "Adjusted Margin ($)", "Discount Factor", "Present Value ($)", "Calculation"] ∧
    (exportOf d).getD (t + 1) [] =
      [if t = 0 then "Acquisition" else "Year " ++ toString t,
       toFixed d.margin 2,
       toFixed (computeRow d t).repeatProb 0,
       toFixed (computeRow d t).adjustedMargin 2,
       toFixed (computeRow d t).discountFactor 4,
       toFixed (computeRow d t).presentValue 2,
       (computeRow d t).calculation] ∧
    (exportOf d).getD (d.timeHorizon + 1) [] =
      ["", "", "", "", "", "Total PV:", toFixed (calculateCLV d).totalPV 2] ∧
    (exportOf d).getD (d.timeHorizon + 2) [] =
      ["", "", "", "", "", "Acquisition Cost:", toFixed (-d.acquisitionCost) 2] ∧
    (exportOf d).getD (d.timeHorizon + 3) [] =
      ["", "", "", "", "", "Final CLV:", toFixed (calculateCLV d).clv 2] := by
  have hlen : (calculateCLV d).yearlyBreakdown.length = d.timeHorizon :=
    calculateCLV_length d
  refine ⟨?_, rfl, ?_, ?_, ?_, ?_⟩
  · simp [exportOf, exportTable, hlen]
  · simp [exportOf, exportTable, List.getD, List.getElem?_append, hlen, ht,
      rows_getElem, computeRow]
  all_goals
  · simp only [exportOf, exportTable, List.getD, List.get?_eq_getElem?]
    rw [List.getElem?_append_right (by simp [hlen])]
    simp [hlen]

/-- Witness for C6 at the default parameters and period 0. -/
theorem export_format_spec_witness :
    1 ≤ defaultData.timeHorizon ∧ 0 < defaultData.timeHorizon ∧
    ((exportOf defaultData).length = defaultData.timeHorizon + 4 ∧
     (exportOf defaultData).getD 0 [] = ["Year", "Margin ($)", "Repeat Prob (%)",
       "Adjusted Margin ($)", "Discount Factor", "Present Value ($)", "Calculation"] ∧
     (exportOf defaultData).getD (0 + 1) [] =
       [if 0 = 0 then "Acquisition" else "Year " ++ toString 0,
        toFixed defaultData.margin 2,
        toFixed (computeRow defaultData 0).repeatProb 0,
        toFixed (computeRow defaultData 0).adjustedMargin 2,
        toFixed (computeRow defaultData 0).discountFactor 4,
        toFixed (computeRow defaultData 0).presentValue 2,
        (computeRow defaultData 0).calculation] ∧
     (exportOf defaultData).getD (defaultData.timeHorizon + 1) [] =
       ["", "", "", "", "", "Total PV:", toFixed (calculateCLV defaultData).totalPV 2] ∧
     (exportOf defaultData).getD (defaultData.timeHorizon + 2) [] =
       ["", "", "", "", "", "Acquisition Cost:",
        toFixed (-defaultData.acquisitionCost) 2] ∧
     (exportOf defaultData).getD (defaultData.timeHorizon + 3) [] =
       ["", "", "", "", "", "Final CLV:", toFixed (calculateCLV defaultData).clv 2]) :=
  ⟨by norm_num [defaultData], by norm_num [defaultData],
   export_format_spec defaultData (by norm_num [defaultData]) 0 (by norm_num [defaultData])⟩
